import Mathlib

/-!
A shallow embedding of `src/DoorLockDClient.py` (the single source file of the
Smart-RFID-Door-Lock-System repository).  The Python program is a lifecycle
orchestrator: it loads a TOML configuration, sets up logging, constructs an
event bus and a module manager, installs signal and thread-exception hooks,
drives modules through setup/enable phases, runs a blocking main loop, and
performs a shutdown sequence in a `finally` block.

Python semantics captured by the embedding:
  * statements are sequenced in a state monad with exceptions and an event
    trace: `M α = St → Except PyExc α × St × List Ev`;
  * `sys.exit(x)` raises `SystemExit`, which is *not* a subclass of
    `Exception` and so is not caught by `except Exception`; the same holds
    for `KeyboardInterrupt`;
  * a `finally` block always runs; an exception raised inside `finally`
    replaces the in-flight exception;
  * a method call `x.m(...)` on `x = None` raises `AttributeError` (recorded
    with the attribute name);
  * an uncaught exception terminates the interpreter with exit status 1;
    an uncaught `SystemExit c` terminates with status `c` (for
    `sys.exit(string)` the status is 1).

External collaborators (`toml.load`, `libs.Module.ModuleManager`,
`libs.Events`, OS signals, the concurrently delivered thread exceptions) are
an explicit environment `Env` of oracle answers; each collaborator call is a
single atomic step from the client's point of view, exactly as the client
code observes them.
-/

namespace DoorLockD

/-- The Python exceptions the client code distinguishes.
`attributeError a` records a method/attribute access `None.a`;
`systemExit c m` is `sys.exit` (status `c`, optional message);
`exc m` is a generic `Exception` subclass carrying its string form. -/
inductive PyExc where
  | attributeError (attr : String)
  | systemExit (code : Nat) (msg : Option String)
  | keyboardInterrupt
  | exc (msg : String)
deriving DecidableEq

/-- Whether `except Exception` catches the exception.  In Python 3,
`SystemExit` and `KeyboardInterrupt` derive from `BaseException` only. -/
def isException : PyExc → Bool
  | .attributeError _ => true
  | .exc _ => true
  | .systemExit _ _ => false
  | .keyboardInterrupt => false

/-- The string form `f"{e}"` of an exception, as used by the client's
log messages. -/
def excMsg : PyExc → String
  | .attributeError a => "NoneType object has no attribute " ++ a
  | .systemExit _ m => m.getD ""
  | .keyboardInterrupt => ""
  | .exc m => m

/-- The `[doorlockd]` section of `config.ini`, with the keys the client
reads (`dc.config.get("doorlockd", {}).get(key, default)`).  A missing
section behaves as the all-`none` record. -/
structure DoorlockdCfg where
  stderr_level : Option String := none
  logfile_name : Option String := none
  logfile_level : Option String := none
  log_level : Option String := none
  enable_modules : Option Bool := none
deriving DecidableEq

/-- The parsed configuration: the `[doorlockd]` section plus the opaque
`[module]` table (only the names of its blocks matter to the client). -/
structure Config where
  doorlockd : DoorlockdCfg := {}
  moduleCfg : List String := []
deriving DecidableEq

/-- Python truthiness of an optional string (`if logfile_name:`):
`None` and the empty string are falsy. -/
def truthy : Option String → Bool
  | none => false
  | some "" => false
  | some _ => true

/-- `getattr(logging, name)` restricted to the level names of the
`logging` module; any other name raises `AttributeError`. -/
def levelOf : String → Option Nat
  | "NOTSET" => some 0
  | "DEBUG" => some 10
  | "INFO" => some 20
  | "WARN" => some 30
  | "WARNING" => some 30
  | "ERROR" => some 40
  | "FATAL" => some 50
  | "CRITICAL" => some 50
  | _ => none

/-- Python `str.upper()` for ASCII level names (character-wise
upper-casing of the string's characters). -/
def pyUpper (s : String) : String := String.mk (s.data.map Char.toUpper)

/-- A handler kind on the root logger: the always-present console
(stderr) handler, or a file handler with its path. -/
inductive HandlerKind where
  | console
  | file (path : String)
deriving DecidableEq

/-- A handler installed on the root logger: its threshold level and its
formatter string. -/
structure Handler where
  kind : HandlerKind
  level : Nat
  formatter : String
deriving DecidableEq

/-- The root logger of the `logging` module: installed handlers (in
installation order) and the overall logger level (Python default WARNING = 30). -/
structure LoggerState where
  handlers : List Handler := []
  level : Nat := 30
deriving DecidableEq

/-- A recorded termination reason inside the ModuleManager:
`abort_msg` and `exit_msg` (both `None` initially). -/
structure TermState where
  abortMsg : Option String := none
  exitMsg : Option String := none
deriving DecidableEq

/-- The ModuleManager collaborator's state visible to the client:
its recorded termination reason. -/
structure ModuleSt where
  term : TermState := {}
deriving DecidableEq

/-- A request arriving at the ModuleManager's termination-reason cell:
an abort request (from the thread exception hook) or an exit request
(from the signal handler). -/
inductive Req where
  | abortReq (msg : String)
  | exitReq (msg : String)
deriving DecidableEq

/-- An asynchronous delivery while the operational loop runs: a
termination signal or an uncaught exception in some worker thread. -/
inductive Delivery where
  | sigint
  | sigterm
  | threadExc (msg : String)
deriving DecidableEq

/-- Trace events: every externally observable action of the client. -/
inductive Ev where
  | log (level : Nat) (msg : String)
  | eventBusConstructed
  | moduleManagerConstructed
  | excepthookInstalled
  | signalHandlersInstalled
  | loadAllEv (names : List String)
  | doAllEv (phase : String)
  | moduleMainLoop
  | clientMainLoopEnter
  | shutdownEnter
  | reasonRecorded (r : Req)
  | reasonSuperseded (r : Req)
deriving DecidableEq

/-- The global data container `dc` plus the `logging` module's root
logger.  `loggerSet` is whether `dc.logger` has been assigned (it is
`None` until the end of `setup_logging`); `moduleMgr` is `dc.module`
(`None` until `setup_module_manager`); `e` is whether `dc.e` holds the
constructed event bus. -/
structure St where
  appNameVer : String := ""
  config : Config := {}
  moduleMgr : Option ModuleSt := none
  e : Bool := false
  loggerSet : Bool := false
  root : LoggerState := {}
  ioPort : Bool := false
  excepthookSet : Bool := false
  sigHandlersSet : Bool := false
deriving DecidableEq

/-- How the external `dc.module.main_loop()` call ends. -/
inductive MainBehavior where
  | ret
  | ki
  | err (msg : String)
deriving DecidableEq

/-- What the configuration source parses to. -/
inductive ConfigResult where
  | ok (cfg : Config)
  | notFound
  | decodeError (msg : String)
deriving DecidableEq

/-- The oracle for every external interaction of one run: the parse of
`config.ini`, the git-version probe, whether the ModuleManager's
`load_all` and each `do_all(phase)` raise (carrying the exception's
string form), how the blocking loop ends, and the interleaving of
signal/thread-exception deliveries while the loop runs. -/
structure Env where
  gitVersion : Option String := none
  configResult : ConfigResult := ConfigResult.notFound
  loadRaise : Option String := none
  phaseRaise : String → Option String := fun _ => none
  mainBehavior : MainBehavior := MainBehavior.ret
  requests : List Delivery := []

/-- The computation type of the embedding: from a pre-state to a result
(normal value or in-flight exception), the post-state, and the trace of
events emitted. -/
def M (α : Type) : Type := St → Except PyExc α × St × List Ev

/-- Return without effect. -/
def retM {α : Type} (a : α) : M α := fun s => (Except.ok a, s, [])

/-- Sequencing: run `x`; on success feed its value to `f`; an exception
short-circuits.  Traces concatenate. -/
def bindM {α β : Type} (x : M α) (f : α → M β) : M β := fun s =>
  match x s with
  | (Except.ok a, s1, t1) =>
      match f a s1 with
      | (r, s2, t2) => (r, s2, t1 ++ t2)
  | (Except.error e, s1, t1) => (Except.error e, s1, t1)

/-- Read the state. -/
def getS : M St := fun s => (Except.ok s, s, [])

/-- Update the state. -/
def modifyS (f : St → St) : M Unit := fun s => (Except.ok (), f s, [])

/-- Emit a trace event. -/
def emitEv (e : Ev) : M Unit := fun s => (Except.ok (), s, [e])

/-- Raise a Python exception. -/
def raiseM {α : Type} (e : PyExc) : M α := fun s => (Except.error e, s, [])

/-- `try body except <catches> as e: handler(e)`.  The handler may itself
raise (its exception propagates). -/
def pyExcept {α : Type} (body : M α) (catches : PyExc → Bool)
    (handler : PyExc → M α) : M α := fun s =>
  match body s with
  | (Except.ok a, s1, t1) => (Except.ok a, s1, t1)
  | (Except.error e, s1, t1) =>
      if catches e then
        match handler e s1 with
        | (r, s2, t2) => (r, s2, t1 ++ t2)
      else (Except.error e, s1, t1)

/-- `try body finally fin`: `fin` always runs; if `fin` raises, its
exception replaces the body's result. -/
def pyFinally {α : Type} (body : M α) (fin : M Unit) : M α := fun s =>
  match body s with
  | (r, s1, t1) =>
      match fin s1 with
      | (Except.ok _, s2, t2) => (r, s2, t1 ++ t2)
      | (Except.error e, s2, t2) => (Except.error e, s2, t1 ++ t2)

/-- The result component of a finished computation. -/
def resOf {α : Type} (x : Except PyExc α × St × List Ev) : Except PyExc α := x.1

/-- The post-state of a finished computation. -/
def stOf {α : Type} (x : Except PyExc α × St × List Ev) : St := x.2.1

/-- The trace of a finished computation. -/
def trOf {α : Type} (x : Except PyExc α × St × List Ev) : List Ev := x.2.2

/-- A call `dc.logger.<method>(msg)`: if `dc.logger` is assigned it emits a
log event at the numeric level of the method; if `dc.logger` is `None` it
raises `AttributeError` naming the method. -/
def dcLog (method : String) (lvl : Nat) (msg : String) : M Unit := fun s =>
  if s.loggerSet then (Except.ok (), s, [Ev.log lvl msg])
  else (Except.error (PyExc.attributeError method), s, [])

/-- A call on the *local* `logger` variable of `setup_logging` (the root
logger object itself) — always succeeds, independent of `dc.logger`. -/
def rootLog (lvl : Nat) (msg : String) : M Unit := fun s =>
  (Except.ok (), s, [Ev.log lvl msg])

/-- `getattr(logging, name)` as a computation: unknown names raise. -/
def getattrLevel (name : String) : M Nat := fun s =>
  match levelOf name with
  | some n => (Except.ok n, s, [])
  | none => (Except.error (PyExc.attributeError name), s, [])

/-- `logger.addHandler(h)`: append to the root logger's handler list. -/
def addHandler (h : Handler) : M Unit :=
  modifyS fun s => { s with root := { s.root with handlers := s.root.handlers ++ [h] } }

/-- A call `dc.module.<attr>...`: raises `AttributeError` when
`dc.module` is `None`, otherwise proceeds with the manager's state. -/
def moduleOp {α : Type} (attr : String) (f : ModuleSt → M α) : M α := fun s =>
  match s.moduleMgr with
  | none => (Except.error (PyExc.attributeError attr), s, [])
  | some m => f m s

/-- Modelled from the spec: the ModuleManager's thread-safe
"set-if-empty" update of TerminationReason (`dc.module.abort` /
`dc.module.exit` live in `libs/Module`, which is not under `src/`).
Per §5 of the spec the update is atomic compare-and-set: a request is
recorded only when neither `abort_msg` nor `exit_msg` is set; otherwise
it is discarded and logged as superseded. -/
def requestReason (t : TermState) (r : Req) : TermState × List Ev :=
  if t.abortMsg = none ∧ t.exitMsg = none then
    match r with
    | Req.abortReq m => ({ t with abortMsg := some m }, [Ev.reasonRecorded r])
    | Req.exitReq m => ({ t with exitMsg := some m }, [Ev.reasonRecorded r])
  else (t, [Ev.reasonSuperseded r])

/-- Apply a sequence of termination-reason requests in arrival order
(atomicity of `requestReason` reduces every interleaving to a sequence). -/
def applyReqs (t : TermState) : List Req → TermState × List Ev
  | [] => (t, [])
  | r :: rs =>
      let p1 := requestReason t r
      let p2 := applyReqs p1.1 rs
      (p2.1, p1.2 ++ p2.2)

/-- The request composed by the installed gateways for one delivery:
the `signal_handler` closure of `setup_signal_handlers` maps SIGINT /
SIGTERM to `dc.module.exit("Received SIGINT"/"Received SIGTERM")`; the
`global_exception_handler` closure of `setup_exception_handling` maps an
uncaught thread exception to
`dc.module.abort("Uncaught exception in thread: " + exc)`. -/
def gatewayReq : Delivery → Req
  | Delivery.sigint => Req.exitReq "Received SIGINT"
  | Delivery.sigterm => Req.exitReq "Received SIGTERM"
  | Delivery.threadExc m => Req.abortReq ("Uncaught exception in thread: " ++ m)

/-- One run's deliveries folded through the gateways into the
termination-reason cell. -/
def applyDeliveries (t : TermState) (ds : List Delivery) : TermState × List Ev :=
  applyReqs t (ds.map gatewayReq)

/-- The deliveries that arrive while `dc.module.main_loop()` blocks,
routed through the installed gateways into the manager's reason cell. -/
def applyDeliveriesM (ds : List Delivery) : M Unit := fun s =>
  match s.moduleMgr with
  | none => (Except.ok (), s, [])
  | some m =>
      let p := applyDeliveries m.term ds
      (Except.ok (), { s with moduleMgr := some { m with term := p.1 } }, p.2)

/-- `get_git_version` (source lines 46-63): the subprocess probe is the
oracle `env.gitVersion`; on failure the method returns "version-unknown". -/
def get_git_version (env : Env) : String := env.gitVersion.getD "version-unknown"

/-- `__init__` = `setup_application_info` + `setup_data_container`
(source lines 27-44): sets the app name/version strings and initializes
the data container with `config = {}`, `module = None`, `e = None`,
`logger = None`, and the IO-port shelf. -/
def mkApp (env : Env) : St :=
  { appNameVer := "doorlockd-client(" ++ get_git_version env ++ ")"
    config := {}
    moduleMgr := none
    e := false
    loggerSet := false
    root := {}
    ioPort := true
    excepthookSet := false
    sigHandlersSet := false }

/-- `load_configuration` (source lines 65-78): `toml.load("config.ini")`
into `dc.config`, then `dc.logger.info("Configuration loaded successfully")`;
`FileNotFoundError` and `TomlDecodeError` become `sys.exit(message)`
(`SystemExit` with status 1). -/
def load_configuration (env : Env) : M Unit :=
  match env.configResult with
  | ConfigResult.ok cfg =>
      bindM (modifyS fun s => { s with config := cfg }) fun _ =>
      dcLog "info" 20 "Configuration loaded successfully"
  | ConfigResult.notFound =>
      raiseM (PyExc.systemExit 1 (some "Configuration file config.ini not found."))
  | ConfigResult.decodeError m =>
      raiseM (PyExc.systemExit 1 (some ("Invalid configuration file: " ++ m)))

/-- The formatter string of source line 87-89. -/
def logFormat : String := "%(asctime)s - %(name)s - %(levelname)s - %(message)s"

/-- `logger.setLevel(min([handler.level for handler in logger.handlers]))`
(source line 110); `min` of an empty list raises `ValueError`. -/
def setRootLevelMin : M Unit := fun s =>
  match s.root.handlers.map Handler.level with
  | [] => (Except.error (PyExc.exc "min() arg is an empty sequence"), s, [])
  | l :: ls =>
      (Except.ok (), { s with root := { s.root with level := ls.foldl Nat.min l } }, [])

/-- `setup_logging` (source lines 80-118): always install the console
handler (threshold `stderr_level`, default "INFO"); if `logfile_name` is
truthy, install a file handler (threshold `logfile_level`, default
"INFO") and then call `dc.logger.info(...)` — note `dc.logger` is only
assigned *after* this branch, at line 111; finally set the root level to
the minimum handler level, assign `dc.logger`, and warn about the
deprecated `log_level` key via the local `logger` variable. -/
def setup_logging : M Unit :=
  bindM getS fun s0 =>
  let console_level := (s0.config.doorlockd.stderr_level).getD "INFO"
  bindM (getattrLevel (pyUpper console_level)) fun clvl =>
  bindM (addHandler { kind := HandlerKind.console, level := clvl, formatter := logFormat }) fun _ =>
  let logfile_name := s0.config.doorlockd.logfile_name
  bindM
    (if truthy logfile_name then
      let file_level := (s0.config.doorlockd.logfile_level).getD "INFO"
      bindM (getattrLevel (pyUpper file_level)) fun flvl =>
      bindM (addHandler { kind := HandlerKind.file (logfile_name.getD ""), level := flvl, formatter := logFormat }) fun _ =>
      dcLog "info" 20 ("Logging to file: " ++ logfile_name.getD "" ++ " (level: " ++ file_level ++ ")")
    else retM ()) fun _ =>
  bindM setRootLevelMin fun _ =>
  bindM (modifyS fun s => { s with loggerSet := true }) fun _ =>
  (if truthy s0.config.doorlockd.log_level then
    rootLog 30 ("Deprecated config doorlockd.log_level will be ignored: "
      ++ (s0.config.doorlockd.log_level).getD "")
  else retM ())

/-- `setup_event_system` (source lines 120-123): `dc.e = Events()`,
then a debug log through `dc.logger`. -/
def setup_event_system : M Unit :=
  bindM (modifyS fun s => { s with e := true }) fun _ =>
  bindM (emitEv Ev.eventBusConstructed) fun _ =>
  dcLog "debug" 10 "Event system initialized"

/-- `setup_module_manager` (source lines 125-128): `dc.module = ModuleManager()`,
then a debug log through `dc.logger`. -/
def setup_module_manager : M Unit :=
  bindM (modifyS fun s => { s with moduleMgr := some {} }) fun _ =>
  bindM (emitEv Ev.moduleManagerConstructed) fun _ =>
  dcLog "debug" 10 "Module manager initialized"

/-- `setup_exception_handling` (source lines 130-138): install the
thread excepthook, then a debug log through `dc.logger`. -/
def setup_exception_handling : M Unit :=
  bindM (modifyS fun s => { s with excepthookSet := true }) fun _ =>
  bindM (emitEv Ev.excepthookInstalled) fun _ =>
  dcLog "debug" 10 "Global exception handler configured"

/-- `setup_signal_handlers` (source lines 140-149): install the SIGINT
and SIGTERM handlers, then a debug log through `dc.logger`. -/
def setup_signal_handlers : M Unit :=
  bindM (modifyS fun s => { s with sigHandlersSet := true }) fun _ =>
  bindM (emitEv Ev.signalHandlersInstalled) fun _ =>
  dcLog "debug" 10 "Signal handlers configured"

/-- `dc.module.load_all(module_configs)` — `AttributeError` on a `None`
manager; an oracle decides whether the external call raises. -/
def module_load_all (env : Env) (names : List String) : M Unit :=
  moduleOp "load_all" fun _ =>
  bindM (emitEv (Ev.loadAllEv names)) fun _ =>
  match env.loadRaise with
  | some m => raiseM (PyExc.exc m)
  | none => retM ()

/-- `dc.module.do_all(phase)` — `AttributeError` on a `None` manager; an
oracle decides whether the external call raises. -/
def module_do_all (env : Env) (phase : String) : M Unit :=
  moduleOp "do_all" fun _ =>
  bindM (emitEv (Ev.doAllEv phase)) fun _ =>
  match env.phaseRaise phase with
  | some m => raiseM (PyExc.exc m)
  | none => retM ()

/-- `dc.module.main_loop()`: the blocking call; while it blocks the
gateway deliveries of the run arrive, then the loop ends as the oracle
says (normal return, `KeyboardInterrupt`, or an `Exception`). -/
def module_main_loop (env : Env) : M Unit :=
  moduleOp "main_loop" fun _ =>
  bindM (emitEv Ev.moduleMainLoop) fun _ =>
  bindM (applyDeliveriesM env.requests) fun _ =>
  match env.mainBehavior with
  | MainBehavior.ret => retM ()
  | MainBehavior.ki => raiseM PyExc.keyboardInterrupt
  | MainBehavior.err m => raiseM (PyExc.exc m)

/-- `initialize_modules` (source lines 151-172): load all modules from
the `[module]` config table, `do_all("setup")`, `do_all("enable")`, log
success and return `True`; any `Exception` is caught, logged at error
level, and the method returns `False`. -/
def init_modules (env : Env) : M Bool :=
  pyExcept
    (bindM getS fun s =>
     bindM (module_load_all env s.config.moduleCfg) fun _ =>
     bindM (module_do_all env "setup") fun _ =>
     bindM (module_do_all env "enable") fun _ =>
     bindM (dcLog "info" 20 "All modules initialized successfully") fun _ =>
     retM true)
    isException
    (fun e =>
     bindM (dcLog "error" 40 ("Failed to initialize modules: " ++ excMsg e)) fun _ =>
     retM false)

/-- Which exceptions the `except` clauses of `main_loop` catch:
`KeyboardInterrupt` or any `Exception`. -/
def mainLoopCatches (e : PyExc) : Bool :=
  match e with
  | PyExc.keyboardInterrupt => true
  | _ => isException e

/-- `main_loop` (source lines 174-185): log entry, call the manager's
blocking loop; `KeyboardInterrupt` is caught and logged at info level,
any other `Exception` is caught and logged at error level. -/
def main_loop (env : Env) : M Unit :=
  pyExcept
    (bindM (emitEv Ev.clientMainLoopEnter) fun _ =>
     bindM getS fun s =>
     bindM (dcLog "info" 20 (s.appNameVer ++ " entering main loop")) fun _ =>
     module_main_loop env)
    mainLoopCatches
    (fun e =>
     match e with
     | PyExc.keyboardInterrupt => dcLog "info" 20 "Main loop interrupted by user"
     | e2 => dcLog "error" 40 ("Main loop error: " ++ excMsg e2))

/-- `shutdown` (source lines 187-205): log, `do_all("disable")`,
`do_all("teardown")`, then log the final reason — `abort_msg` at warning
level, else `exit_msg` at info level, else a normal-shutdown info line.
The `shutdownEnter` event marks the entry of the method. -/
def shutdown (env : Env) : M Unit :=
  bindM (emitEv Ev.shutdownEnter) fun _ =>
  bindM (dcLog "info" 20 "Initiating shutdown sequence...") fun _ =>
  bindM (module_do_all env "disable") fun _ =>
  bindM (module_do_all env "teardown") fun _ =>
  moduleOp "abort_msg" fun m =>
  match m.term.abortMsg with
  | some am => dcLog "warning" 30 ("Shutdown due to abort: " ++ am)
  | none =>
      match m.term.exitMsg with
      | some em => dcLog "info" 20 ("Shutdown requested: " ++ em)
      | none => dcLog "info" 20 "Normal shutdown completed"

/-- The `doorlockd.enable_modules` flag with its Python default `True`
(source line 223). -/
def enable_modules_flag (s : St) : Bool :=
  (s.config.doorlockd.enable_modules).getD true

/-- Source lines 228-229: `if self.initialize_modules(): self.main_loop()`. -/
def run_modules_phase (env : Env) : M Unit :=
  bindM (init_modules env) fun ok =>
  if ok then main_loop env else retM ()

/-- The `try`-block body of `run` (source lines 211-229): the
initialization sequence, the `enable_modules` check (warn and return
when disabled), then module initialization and the main loop. -/
def run_body (env : Env) : M Unit :=
  bindM (load_configuration env) fun _ =>
  bindM setup_logging fun _ =>
  bindM (bindM getS fun s => dcLog "info" 20 (s.appNameVer ++ " starting up...")) fun _ =>
  bindM setup_event_system fun _ =>
  bindM setup_module_manager fun _ =>
  bindM setup_exception_handling fun _ =>
  bindM setup_signal_handlers fun _ =>
  bindM getS fun s =>
  if !(enable_modules_flag s) then
    dcLog "warning" 30 "Modules are disabled in configuration"
  else
    run_modules_phase env

/-- `run` (source lines 207-235): the body under
`except Exception: dc.logger.critical(...); sys.exit(1)` and
`finally: self.shutdown()`. -/
def run (env : Env) : M Unit :=
  pyFinally
    (pyExcept (run_body env) isException
      (fun e =>
       bindM (dcLog "critical" 50 ("Fatal error during startup: " ++ excMsg e)) fun _ =>
       raiseM (PyExc.systemExit 1 none)))
    (shutdown env)

/-- `main()` (source lines 238-243): construct the client and run it,
from the fresh interpreter state. -/
def mainProgram (env : Env) : Except PyExc Unit × St × List Ev :=
  run env (mkApp env)

/-- The process exit status determined by how `main` ends: normal return
exits 0; an uncaught `SystemExit c` exits `c`; any other uncaught
exception makes the interpreter exit 1. -/
def exit_status (r : Except PyExc Unit) : Nat :=
  match r with
  | Except.ok _ => 0
  | Except.error (PyExc.systemExit c _) => c
  | Except.error _ => 1

/-- The exit status of one whole run of the program. -/
def processStatus (env : Env) : Nat := exit_status (resOf (mainProgram env))

/-- The final-reason log line `shutdown` emits (source lines 200-205):
abort at warning level (30), else exit at info level (20), else the
info-level normal-shutdown line. -/
def final_reason_log (m : ModuleSt) : Ev :=
  match m.term.abortMsg with
  | some am => Ev.log 30 ("Shutdown due to abort: " ++ am)
  | none =>
      match m.term.exitMsg with
      | some em => Ev.log 20 ("Shutdown requested: " ++ em)
      | none => Ev.log 20 "Normal shutdown completed"

/-- A termination-reason cell that already holds a reason ignores every
further request, emitting only the superseded log. -/
lemma requestReason_occupied (t : TermState) (r : Req)
    (h : ¬(t.abortMsg = none ∧ t.exitMsg = none)) :
    requestReason t r = (t, [Ev.reasonSuperseded r]) := by
  unfold requestReason
  rw [if_neg h]

/-- Once a reason is recorded, a whole sequence of further requests
leaves the cell unchanged and logs each request as superseded. -/
lemma applyReqs_occupied (t : TermState) (rs : List Req)
    (h : ¬(t.abortMsg = none ∧ t.exitMsg = none)) :
    applyReqs t rs = (t, rs.map Ev.reasonSuperseded) := by
  induction rs with
  | nil => rfl
  | cons r rs ih =>
      unfold applyReqs
      rw [requestReason_occupied t r h]
      simp only []
      rw [ih]
      rfl

/-- One request step preserves mutual exclusion of abort and exit. -/
lemma requestReason_mutex (t : TermState) (r : Req)
    (h : t.abortMsg = none ∨ t.exitMsg = none) :
    (requestReason t r).1.abortMsg = none ∨ (requestReason t r).1.exitMsg = none := by
  unfold requestReason
  by_cases hc : t.abortMsg = none ∧ t.exitMsg = none
  · rw [if_pos hc]
    cases r with
    | abortReq m => exact Or.inr hc.2
    | exitReq m => exact Or.inl hc.1
  · rw [if_neg hc]
    exact h

/-- Mutual exclusion of abort and exit is an invariant of any request
sequence. -/
lemma applyReqs_mutex (rs : List Req) (t : TermState)
    (h : t.abortMsg = none ∨ t.exitMsg = none) :
    (applyReqs t rs).1.abortMsg = none ∨ (applyReqs t rs).1.exitMsg = none := by
  induction rs generalizing t with
  | nil => exact h
  | cons r rs ih =>
      unfold applyReqs
      exact ih _ (requestReason_mutex t r h)

/-- Claim C1: on every run of the program — whatever the configuration
parse yields and whatever the external collaborators do — the shutdown
method of the client is entered exactly once: the `finally` block of
`run` invokes it on every exit path, never zero times and never twice. -/
theorem run_shutdown_exactly_once (env : Env) :
    (trOf (mainProgram env)).count Ev.shutdownEnter = 1 := by
  obtain ⟨gv, cr, lr, pr, mb, rq⟩ := env
  cases cr <;> rfl

/-- Claim C2: when the configuration source is missing or cannot be
parsed, the process ends with exit status 1, the module manager and the
event bus are never constructed (`dc.module` and `dc.e` stay `None`),
logging is never started, and none of the shutdown sequence's phase
applications or final-reason logging runs: the whole trace is the bare
entry of the `finally`-invoked shutdown method, which dies on the unset
logger before doing anything. -/
theorem config_error_no_shutdown_sequence (env : Env)
    (h : env.configResult = ConfigResult.notFound ∨
      ∃ m, env.configResult = ConfigResult.decodeError m) :
    processStatus env = 1 ∧
    trOf (mainProgram env) = [Ev.shutdownEnter] ∧
    (stOf (mainProgram env)).moduleMgr = none ∧
    (stOf (mainProgram env)).e = false ∧
    (stOf (mainProgram env)).loggerSet = false := by
  obtain ⟨gv, cr, lr, pr, mb, rq⟩ := env
  rcases h with h | ⟨m, h⟩ <;> cases cr <;> simp_all <;>
    exact ⟨rfl, rfl, rfl, rfl, rfl⟩

/-- Witness for claim C2 at the default environment (missing
`config.ini`). -/
theorem config_error_no_shutdown_sequence_witness :
    processStatus {} = 1 ∧
    trOf (mainProgram {}) = [Ev.shutdownEnter] ∧
    (stOf (mainProgram {})).moduleMgr = none ∧
    (stOf (mainProgram {})).e = false ∧
    (stOf (mainProgram {})).loggerSet = false :=
  config_error_no_shutdown_sequence {} (Or.inl rfl)

/-- A run with a syntactically valid (here: empty) `config.ini`. -/
def envValidEmpty : Env := { configResult := ConfigResult.ok {} }

/-- A run with a valid `config.ini` whose `[doorlockd]` section sets
`enable_modules = false`. -/
def envModulesDisabled : Env :=
  { configResult := ConfigResult.ok { doorlockd := { enable_modules := some false } } }

/-- Claim C3 (divergence evidence): with a valid configuration the run
never performs the claimed startup sequence.  `load_configuration`
dereferences the still-`None` `dc.logger` right after the successful
parse, so the run dies with `AttributeError` before logging starts, the
event bus and module manager are never constructed, the gateways are
never installed, and the process exits with status 1; the trace holds
nothing but the entry of the `finally`-invoked shutdown (which dies on
the same unset logger). -/
theorem valid_config_startup_never_runs :
    resOf (mainProgram envValidEmpty) = Except.error (PyExc.attributeError "info") ∧
    trOf (mainProgram envValidEmpty) = [Ev.shutdownEnter] ∧
    processStatus envValidEmpty = 1 ∧
    (stOf (mainProgram envValidEmpty)).loggerSet = false ∧
    (stOf (mainProgram envValidEmpty)).e = false ∧
    (stOf (mainProgram envValidEmpty)).moduleMgr = none ∧
    (stOf (mainProgram envValidEmpty)).excepthookSet = false ∧
    (stOf (mainProgram envValidEmpty)).sigHandlersSet = false :=
  ⟨rfl, rfl, rfl, rfl, rfl, rfl, rfl, rfl⟩

/-- Claim C5 (divergence evidence): with `doorlockd.enable_modules =
false` in a valid configuration, the run crashes in `load_configuration`
on the `None` logger before the `enable_modules` check is ever reached:
no warning is logged (the trace holds no log event at all), the run does
not return normally, and the process exits with status 1, not 0. -/
theorem modules_disabled_still_crashes :
    resOf (mainProgram envModulesDisabled) = Except.error (PyExc.attributeError "info") ∧
    trOf (mainProgram envModulesDisabled) = [Ev.shutdownEnter] ∧
    processStatus envModulesDisabled = 1 :=
  ⟨rfl, rfl, rfl⟩

/-- Claim C7: the termination reason is first-writer-wins and mutually
exclusive.  For every interleaving of signal deliveries and captured
thread exceptions (any nonempty sequence of gateway requests), the first
request determines the recorded reason, every later request leaves the
cell unchanged and is logged as superseded, and no reachable cell state
has both the abort and the exit reason set. -/
theorem termination_reason_first_writer_wins :
    (∀ d ds,
      (applyDeliveries {} (d :: ds)).1 = (requestReason {} (gatewayReq d)).1 ∧
      (applyDeliveries {} (d :: ds)).2 =
        Ev.reasonRecorded (gatewayReq d) ::
          ds.map (fun x => Ev.reasonSuperseded (gatewayReq x))) ∧
    (∀ ds, (applyDeliveries {} ds).1.abortMsg = none ∨
      (applyDeliveries {} ds).1.exitMsg = none) := by
  constructor
  · intro d ds
    have hfirst : ∀ (r : Req) (rs : List Req), applyReqs {} (r :: rs)
        = ((requestReason {} r).1, Ev.reasonRecorded r :: rs.map Ev.reasonSuperseded) := by
      intro r rs
      cases r with
      | abortReq m => simp [applyReqs, requestReason, applyReqs_occupied]
      | exitReq m => simp [applyReqs, requestReason, applyReqs_occupied]
    unfold applyDeliveries
    rw [List.map_cons, hfirst]
    refine ⟨rfl, ?_⟩
    simp [List.map_map]
  · intro ds
    exact applyReqs_mutex _ _ (Or.inl rfl)

/-- Evaluation of `shutdown` from any state in which startup installed
the logger and the module manager, when the external disable/teardown
calls return normally. -/
lemma shutdown_eval (env : Env) (s : St) (mst : ModuleSt)
    (hl : s.loggerSet = true) (hm : s.moduleMgr = some mst)
    (hd : env.phaseRaise "disable" = none) (ht : env.phaseRaise "teardown" = none) :
    shutdown env s =
      (Except.ok (), s,
        [Ev.shutdownEnter, Ev.log 20 "Initiating shutdown sequence...",
         Ev.doAllEv "disable", Ev.doAllEv "teardown", final_reason_log mst]) := by
  cases hab : mst.term.abortMsg with
  | some am =>
      simp [shutdown, bindM, emitEv, dcLog, module_do_all, moduleOp, retM,
        final_reason_log, hl, hm, hd, ht, hab]
  | none =>
      cases hex : mst.term.exitMsg with
      | some em =>
          simp [shutdown, bindM, emitEv, dcLog, module_do_all, moduleOp, retM,
            final_reason_log, hl, hm, hd, ht, hab, hex]
      | none =>
          simp [shutdown, bindM, emitEv, dcLog, module_do_all, moduleOp, retM,
            final_reason_log, hl, hm, hd, ht, hab, hex]

/-- Claim C6: the shutdown sequence applies `disable` to all modules,
then `teardown` to all modules, and only after both phases logs the
final termination reason — an abort reason at warning level (30), an
exit reason at info level (20), otherwise the info-level normal-shutdown
line (see `final_reason_log`). -/
theorem shutdown_disable_teardown_then_reason (env : Env) (s : St) (mst : ModuleSt)
    (hl : s.loggerSet = true) (hm : s.moduleMgr = some mst)
    (hd : env.phaseRaise "disable" = none) (ht : env.phaseRaise "teardown" = none) :
    shutdown env s =
      (Except.ok (), s,
        [Ev.shutdownEnter, Ev.log 20 "Initiating shutdown sequence...",
         Ev.doAllEv "disable", Ev.doAllEv "teardown", final_reason_log mst]) :=
  shutdown_eval env s mst hl hm hd ht

/-- A state as left by a startup that reached the operational phase:
logger assigned, module manager constructed with an abort reason
recorded. -/
def stShutdownW : St :=
  { appNameVer := "doorlockd-client(v)"
    moduleMgr := some { term := { abortMsg := some "boom" } }
    e := true
    loggerSet := true }

/-- Witness for claim C6: a concrete shutdown with a recorded abort
reason emits disable, then teardown, then the warning-level abort line. -/
theorem shutdown_disable_teardown_then_reason_witness :
    shutdown {} stShutdownW =
      (Except.ok (), stShutdownW,
        [Ev.shutdownEnter, Ev.log 20 "Initiating shutdown sequence...",
         Ev.doAllEv "disable", Ev.doAllEv "teardown",
         Ev.log 30 "Shutdown due to abort: boom"]) :=
  shutdown_disable_teardown_then_reason {} stShutdownW
    { term := { abortMsg := some "boom" } } rfl rfl rfl rfl

/-- Claim C10: the client's `main_loop` never propagates an exception to
its caller when the logger is installed: it returns normally whatever
the manager's blocking loop does — a `KeyboardInterrupt` is caught and
logged at info level, any other `Exception` is caught and logged at
error level — so a failure inside the operational loop never reaches
`run`'s fatal-startup-error branch. -/
theorem main_loop_never_propagates (env : Env) (s : St) (mst : ModuleSt)
    (hl : s.loggerSet = true) (hm : s.moduleMgr = some mst) :
    resOf (main_loop env s) = Except.ok () ∧
    (env.mainBehavior = MainBehavior.ki →
      Ev.log 20 "Main loop interrupted by user" ∈ trOf (main_loop env s)) ∧
    (∀ m, env.mainBehavior = MainBehavior.err m →
      Ev.log 40 ("Main loop error: " ++ m) ∈ trOf (main_loop env s)) := by
  cases hb : env.mainBehavior with
  | ret =>
      simp [main_loop, pyExcept, bindM, emitEv, getS, dcLog, module_main_loop,
        moduleOp, applyDeliveriesM, mainLoopCatches, isException, excMsg,
        retM, raiseM, resOf, trOf, hl, hm, hb]
  | ki =>
      simp [main_loop, pyExcept, bindM, emitEv, getS, dcLog, module_main_loop,
        moduleOp, applyDeliveriesM, mainLoopCatches, isException, excMsg,
        retM, raiseM, resOf, trOf, hl, hm, hb]
  | err m =>
      simp [main_loop, pyExcept, bindM, emitEv, getS, dcLog, module_main_loop,
        moduleOp, applyDeliveriesM, mainLoopCatches, isException, excMsg,
        retM, raiseM, resOf, trOf, hl, hm, hb]

/-- Witness for claim C10: a concrete interrupted loop returns normally
and logs the info-level interruption line. -/
theorem main_loop_never_propagates_witness :
    resOf (main_loop { mainBehavior := MainBehavior.ki } stShutdownW) = Except.ok () ∧
    Ev.log 20 "Main loop interrupted by user"
      ∈ trOf (main_loop { mainBehavior := MainBehavior.ki } stShutdownW) := by
  have h := main_loop_never_propagates { mainBehavior := MainBehavior.ki }
    stShutdownW { term := { abortMsg := some "boom" } } rfl rfl
  exact ⟨h.1, h.2.1 rfl⟩

/-- Evaluation of `initialize_modules` when the external `load_all`
raises: the error is caught and logged, the method returns `False`, the
state is unchanged. -/
lemma init_modules_load_fail (env : Env) (s : St) (mst : ModuleSt) (m : String)
    (hl : s.loggerSet = true) (hm : s.moduleMgr = some mst)
    (hlr : env.loadRaise = some m) :
    init_modules env s =
      (Except.ok false, s,
        [Ev.loadAllEv s.config.moduleCfg,
         Ev.log 40 ("Failed to initialize modules: " ++ m)]) := by
  simp [init_modules, pyExcept, bindM, getS, module_load_all, module_do_all,
    moduleOp, emitEv, dcLog, retM, raiseM, isException, excMsg, hl, hm, hlr]

/-- Evaluation of `initialize_modules` when `do_all("setup")` raises. -/
lemma init_modules_setup_fail (env : Env) (s : St) (mst : ModuleSt) (m : String)
    (hl : s.loggerSet = true) (hm : s.moduleMgr = some mst)
    (hlr : env.loadRaise = none) (hsr : env.phaseRaise "setup" = some m) :
    init_modules env s =
      (Except.ok false, s,
        [Ev.loadAllEv s.config.moduleCfg, Ev.doAllEv "setup",
         Ev.log 40 ("Failed to initialize modules: " ++ m)]) := by
  simp [init_modules, pyExcept, bindM, getS, module_load_all, module_do_all,
    moduleOp, emitEv, dcLog, retM, raiseM, isException, excMsg, hl, hm, hlr, hsr]

/-- Evaluation of `initialize_modules` when `do_all("enable")` raises. -/
lemma init_modules_enable_fail (env : Env) (s : St) (mst : ModuleSt) (m : String)
    (hl : s.loggerSet = true) (hm : s.moduleMgr = some mst)
    (hlr : env.loadRaise = none) (hsr : env.phaseRaise "setup" = none)
    (her : env.phaseRaise "enable" = some m) :
    init_modules env s =
      (Except.ok false, s,
        [Ev.loadAllEv s.config.moduleCfg, Ev.doAllEv "setup", Ev.doAllEv "enable",
         Ev.log 40 ("Failed to initialize modules: " ++ m)]) := by
  simp [init_modules, pyExcept, bindM, getS, module_load_all, module_do_all,
    moduleOp, emitEv, dcLog, retM, raiseM, isException, excMsg, hl, hm, hlr, hsr, her]

/-- `if self.initialize_modules(): self.main_loop()` when initialization
reported failure: the loop is skipped, nothing more happens. -/
lemma run_modules_phase_of_init_false (env : Env) (s : St)
    (h : init_modules env s = (Except.ok false, s, tr)) :
    run_modules_phase env s = (Except.ok (), s, tr) := by
  simp [run_modules_phase, bindM, retM, h]

/-- Claim C4: from any state in which startup has installed the logger
and the module manager, if module loading or a setup/enable phase
application raises, then the error is logged at error level, the method
returns `False` so the operational loop is never entered, no exception
escapes (the process is not aborted by the error), and the shutdown that
follows still applies `disable` and `teardown` to the loaded modules. -/
theorem init_error_skips_loop_reaches_shutdown (env : Env) (s : St) (mst : ModuleSt)
    (hl : s.loggerSet = true) (hm : s.moduleMgr = some mst)
    (hfail : env.loadRaise.isSome ∨ (env.phaseRaise "setup").isSome ∨
      (env.phaseRaise "enable").isSome)
    (hd : env.phaseRaise "disable" = none) (ht : env.phaseRaise "teardown" = none) :
    resOf (init_modules env s) = Except.ok false ∧
    (∃ m, Ev.log 40 ("Failed to initialize modules: " ++ m)
      ∈ trOf (init_modules env s)) ∧
    (trOf (run_modules_phase env s)).count Ev.clientMainLoopEnter = 0 ∧
    (trOf (run_modules_phase env s)).count Ev.moduleMainLoop = 0 ∧
    resOf (run_modules_phase env s) = Except.ok () ∧
    Ev.doAllEv "disable" ∈ trOf (shutdown env (stOf (run_modules_phase env s))) ∧
    Ev.doAllEv "teardown" ∈ trOf (shutdown env (stOf (run_modules_phase env s))) := by
  have hcase : ∃ tr, init_modules env s = (Except.ok false, s, tr) ∧
      (∃ m, Ev.log 40 ("Failed to initialize modules: " ++ m) ∈ tr) ∧
      tr.count Ev.clientMainLoopEnter = 0 ∧ tr.count Ev.moduleMainLoop = 0 := by
    cases hlr : env.loadRaise with
    | some m =>
        refine ⟨_, init_modules_load_fail env s mst m hl hm hlr, ⟨m, ?_⟩, rfl, rfl⟩
        simp
    | none =>
        cases hsr : env.phaseRaise "setup" with
        | some m =>
            refine ⟨_, init_modules_setup_fail env s mst m hl hm hlr hsr, ⟨m, ?_⟩, rfl, rfl⟩
            simp
        | none =>
            cases her : env.phaseRaise "enable" with
            | some m =>
                refine ⟨_, init_modules_enable_fail env s mst m hl hm hlr hsr her,
                  ⟨m, ?_⟩, rfl, rfl⟩
                simp
            | none =>
                rcases hfail with hcontra | hcontra | hcontra <;> simp_all
  obtain ⟨tr, hinit, hmem, hc1, hc2⟩ := hcase
  have hrmp := run_modules_phase_of_init_false env s hinit
  have hsh := shutdown_eval env s mst hl hm hd ht
  refine ⟨?_, ?_, ?_, ?_, ?_, ?_, ?_⟩
  · rw [hinit]; rfl
  · rw [hinit]; exact hmem
  · rw [hrmp]; exact hc1
  · rw [hrmp]; exact hc2
  · rw [hrmp]; rfl
  · rw [hrmp]
    show Ev.doAllEv "disable" ∈ trOf (shutdown env s)
    rw [hsh]
    simp [trOf]
  · rw [hrmp]
    show Ev.doAllEv "teardown" ∈ trOf (shutdown env s)
    rw [hsh]
    simp [trOf]

/-- An environment whose external `do_all("setup")` raises. -/
def envSetupFail : Env :=
  { phaseRaise := fun p => if p = "setup" then some "sensor init failed" else none }

/-- Witness for claim C4 at a concrete failing setup phase. -/
theorem init_error_skips_loop_reaches_shutdown_witness :
    resOf (init_modules envSetupFail stShutdownW) = Except.ok false ∧
    (∃ m, Ev.log 40 ("Failed to initialize modules: " ++ m)
      ∈ trOf (init_modules envSetupFail stShutdownW)) ∧
    (trOf (run_modules_phase envSetupFail stShutdownW)).count Ev.clientMainLoopEnter = 0 ∧
    (trOf (run_modules_phase envSetupFail stShutdownW)).count Ev.moduleMainLoop = 0 ∧
    resOf (run_modules_phase envSetupFail stShutdownW) = Except.ok () ∧
    Ev.doAllEv "disable"
      ∈ trOf (shutdown envSetupFail (stOf (run_modules_phase envSetupFail stShutdownW))) ∧
    Ev.doAllEv "teardown"
      ∈ trOf (shutdown envSetupFail (stOf (run_modules_phase envSetupFail stShutdownW))) :=
  init_error_skips_loop_reaches_shutdown envSetupFail stShutdownW
    { term := { abortMsg := some "boom" } } rfl rfl
    (Or.inr (Or.inl (by decide))) rfl rfl

/-- Claim C8: from a fresh root logger, `setup_logging` always installs
the console handler, with threshold defaulting to INFO (20) when
`doorlockd.stderr_level` is absent; a file handler is installed if and
only if `doorlockd.logfile_name` is configured (truthy), with threshold
defaulting to INFO; and every installed handler carries the
`timestamp - component - level - message` formatter, so every emitted
log line has that format.  (With a file configured the method still
installs both handlers and only afterwards trips over the unset
`dc.logger` — see claim C9.) -/
theorem setup_logging_handlers (s : St)
    (hh : s.root.handlers = []) (hl : s.loggerSet = false)
    (h1 : (levelOf (pyUpper ((s.config.doorlockd.stderr_level).getD "INFO"))).isSome = true)
    (h2 : truthy s.config.doorlockd.logfile_name = true →
      (levelOf (pyUpper ((s.config.doorlockd.logfile_level).getD "INFO"))).isSome = true) :
    (truthy s.config.doorlockd.logfile_name = false →
      (stOf (setup_logging s)).root.handlers =
        [{ kind := HandlerKind.console,
           level := (levelOf (pyUpper ((s.config.doorlockd.stderr_level).getD "INFO"))).getD 0,
           formatter := logFormat }]) ∧
    (truthy s.config.doorlockd.logfile_name = true →
      (stOf (setup_logging s)).root.handlers =
        [{ kind := HandlerKind.console,
           level := (levelOf (pyUpper ((s.config.doorlockd.stderr_level).getD "INFO"))).getD 0,
           formatter := logFormat },
         { kind := HandlerKind.file ((s.config.doorlockd.logfile_name).getD ""),
           level := (levelOf (pyUpper ((s.config.doorlockd.logfile_level).getD "INFO"))).getD 0,
           formatter := logFormat }]) ∧
    (s.config.doorlockd.stderr_level = none →
      (levelOf (pyUpper ((s.config.doorlockd.stderr_level).getD "INFO"))).getD 0 = 20) ∧
    (s.config.doorlockd.logfile_level = none →
      (levelOf (pyUpper ((s.config.doorlockd.logfile_level).getD "INFO"))).getD 0 = 20) ∧
    (∀ h ∈ (stOf (setup_logging s)).root.handlers, h.formatter = logFormat) := by
  obtain ⟨cl, hcl⟩ := Option.isSome_iff_exists.mp h1
  have hhandlers : (truthy s.config.doorlockd.logfile_name = false →
      (stOf (setup_logging s)).root.handlers =
        [{ kind := HandlerKind.console, level := cl, formatter := logFormat }]) ∧
      (truthy s.config.doorlockd.logfile_name = true →
        (stOf (setup_logging s)).root.handlers =
          [{ kind := HandlerKind.console, level := cl, formatter := logFormat },
           { kind := HandlerKind.file ((s.config.doorlockd.logfile_name).getD ""),
             level := (levelOf (pyUpper ((s.config.doorlockd.logfile_level).getD "INFO"))).getD 0,
             formatter := logFormat }]) := by
    cases htr : truthy s.config.doorlockd.logfile_name with
    | false =>
        cases hdep : truthy s.config.doorlockd.log_level <;>
          simp [setup_logging, bindM, getS, getattrLevel, addHandler, modifyS,
            dcLog, rootLog, retM, setRootLevelMin, stOf, hh, hl, hcl, htr, hdep]
    | true =>
        obtain ⟨fl, hfl⟩ := Option.isSome_iff_exists.mp (h2 htr)
        simp [setup_logging, bindM, getS, getattrLevel, addHandler, modifyS,
          dcLog, rootLog, retM, setRootLevelMin, stOf, hh, hl, hcl, htr, hfl]
  refine ⟨by simp only [hcl, Option.getD_some]; exact hhandlers.1,
    by simp only [hcl, Option.getD_some]; exact hhandlers.2, ?_, ?_, ?_⟩
  · intro hnone
    rw [hnone]
    decide
  · intro hnone
    rw [hnone]
    decide
  · intro h hmem
    cases htr : truthy s.config.doorlockd.logfile_name with
    | false =>
        rw [hhandlers.1 htr] at hmem
        simp at hmem
        rw [hmem]
    | true =>
        rw [hhandlers.2 htr] at hmem
        rcases List.mem_pair.mp hmem with hq | hq <;> rw [hq]

/-- A state whose configuration asks for file logging. -/
def stFileCfg : St :=
  { config := { doorlockd := { logfile_name := some "door.log" } } }

/-- Witness for claim C8 at a configuration with a log file and no
explicit levels: both handlers appear with the default INFO threshold
and the mandated formatter. -/
theorem setup_logging_handlers_witness :
    (stOf (setup_logging stFileCfg)).root.handlers =
      [{ kind := HandlerKind.console, level := 20, formatter := logFormat },
       { kind := HandlerKind.file "door.log", level := 20, formatter := logFormat }] ∧
    (∀ h ∈ (stOf (setup_logging stFileCfg)).root.handlers, h.formatter = logFormat) := by
  have h := setup_logging_handlers stFileCfg rfl rfl (by decide) (fun _ => by decide)
  exact ⟨h.2.1 rfl, h.2.2.2.2⟩

/-- Claim C9: `dc.logger` is `None` from `setup_data_container` until
the assignment at the end of `setup_logging`.  Hence the success log in
`load_configuration` (reached on every successful parse) and the
file-logging confirmation inside `setup_logging`'s file branch (reached
whenever a log file and valid levels are configured) each dereference
`None` and raise `AttributeError` on the `info` attribute; and
`setup_logging` only ever returns normally with the logger assigned. -/
theorem logger_none_until_assigned (env : Env) (s : St) (cfg : Config)
    (hls : s.loggerSet = false) (hh : s.root.handlers = []) :
    (mkApp env).loggerSet = false ∧
    (env.configResult = ConfigResult.ok cfg →
      resOf (load_configuration env s) = Except.error (PyExc.attributeError "info")) ∧
    (truthy s.config.doorlockd.logfile_name = true →
      (levelOf (pyUpper ((s.config.doorlockd.stderr_level).getD "INFO"))).isSome = true →
      (levelOf (pyUpper ((s.config.doorlockd.logfile_level).getD "INFO"))).isSome = true →
      resOf (setup_logging s) = Except.error (PyExc.attributeError "info")) ∧
    (resOf (setup_logging s) = Except.ok () →
      (stOf (setup_logging s)).loggerSet = true) := by
  refine ⟨rfl, ?_, ?_, ?_⟩
  · intro hc
    simp [load_configuration, bindM, modifyS, dcLog, resOf, hc, hls]
  · intro htr h1 h2
    obtain ⟨cl, hcl⟩ := Option.isSome_iff_exists.mp h1
    obtain ⟨fl, hfl⟩ := Option.isSome_iff_exists.mp h2
    simp [setup_logging, bindM, getS, getattrLevel, addHandler, modifyS,
      dcLog, rootLog, retM, setRootLevelMin, resOf, hh, hls, hcl, htr, hfl]
  · intro hok
    cases hcl : levelOf (pyUpper ((s.config.doorlockd.stderr_level).getD "INFO")) with
    | none =>
        exfalso
        simp [setup_logging, bindM, getS, getattrLevel, resOf, hcl] at hok
    | some cl =>
        cases htr : truthy s.config.doorlockd.logfile_name with
        | true =>
            exfalso
            cases hfl : levelOf (pyUpper ((s.config.doorlockd.logfile_level).getD "INFO")) with
            | none =>
                simp [setup_logging, bindM, getS, getattrLevel, addHandler, modifyS,
                  dcLog, retM, resOf, hcl, htr, hfl] at hok
            | some fl =>
                simp [setup_logging, bindM, getS, getattrLevel, addHandler, modifyS,
                  dcLog, retM, resOf, hls, hcl, htr, hfl] at hok
        | false =>
            cases hdep : truthy s.config.doorlockd.log_level <;>
              simp [setup_logging, bindM, getS, getattrLevel, addHandler, modifyS,
                dcLog, rootLog, retM, setRootLevelMin, stOf, hh, hcl, htr, hdep]

/-- An environment with a syntactically valid, empty configuration. -/
def envOkEmpty : Env := { configResult := ConfigResult.ok {} }

/-- Witness for claim C9: the fresh client has no logger; with a valid
parse the success log crashes; with a configured log file the
confirmation log crashes. -/
theorem logger_none_until_assigned_witness :
    (mkApp envOkEmpty).loggerSet = false ∧
    resOf (load_configuration envOkEmpty stFileCfg) =
      Except.error (PyExc.attributeError "info") ∧
    resOf (setup_logging stFileCfg) = Except.error (PyExc.attributeError "info") := by
  have h := logger_none_until_assigned envOkEmpty stFileCfg {} rfl rfl
  exact ⟨h.1, h.2.1 rfl, h.2.2.1 rfl (by decide) (by decide)⟩

end DoorLockD
